import Mathlib

/-!
Verification development for the BrickBreaker2500 arcade-simulation core.

The definitions below are a shallow embedding of the JavaScript source:

* src/js/entities/Brick.js           (BrickTypes, Brick.hit, Brick.checkCollision)
* src/unnamed/part_003               (ScoreManager.addBrickScore)
* src/unnamed/part_000               (Game.handleBrickHit, Game.createMirrorClone)
* src/unnamed/part_004               (Physics.checkLaserBrickCollision)
* src/js/systems/CollisionSystem.js  (circleRectCollision, handleRainbowCollision)
* src/js/systems/PowerUpManager.js   (PowerUpManager.update, the active-effect loop)
* src/js/utils/ObjectPool.js         (ObjectPool.acquire, ParticleSystem.emit)
* src/js/game.js                     (Game.handleBubbleSplit, Game.createBubble)

JavaScript numbers are embedded as rationals (ℚ) where fractional values
occur and as integers (ℤ) where the program only ever holds integers.
The special value Infinity used for METAL bricks is embedded as the
none case of an Option.
-/

namespace BrickBreaker

/-- Brick type identifiers, mirroring the id fields of BrickTypes in Brick.js. -/
def normalId : ℕ := 1

/-- Brick type id of STRONG bricks. -/
def strongId : ℕ := 2

/-- Brick type id of SUPER bricks. -/
def superId : ℕ := 3

/-- Brick type id of METAL (indestructible) bricks. -/
def metalId : ℕ := 4

/-- Brick type id of POWER bricks. -/
def powerId : ℕ := 5

/-- Brick type id of EXPLOSIVE bricks. -/
def explosiveId : ℕ := 6

/-- Brick type id of RAINBOW bricks. -/
def rainbowId : ℕ := 7

/-- Brick type id of MOVING bricks. -/
def movingId : ℕ := 8

/-- Brick type id of MIRROR (duplicator) bricks. -/
def mirrorId : ℕ := 9

/-- Brick type id of SUPER_POWERUP bricks. -/
def superPowerupId : ℕ := 10

/-- State of one Brick instance (Brick.js constructor), restricted to the
fields that the hit / collision / clone logic reads or writes.
hitsRemaining and maxHits embed the JavaScript number that may be Infinity
for METAL bricks: none stands for Infinity, some n for the finite number n
(an integer throughout the program, though nothing in the code stops it
from being decremented below zero).  clones embeds this.clones.length, the
number of clone references held by a MIRROR brick. -/
structure Brick where
  x : ℚ
  y : ℚ
  width : ℚ
  height : ℚ
  typeId : ℕ
  maxHits : Option ℤ
  hitsRemaining : Option ℤ
  points : ℤ
  destroyed : Bool
  destroying : Bool
  destroyTime : ℚ
  hiddenPowerUp : Bool
  isClone : Bool
  clones : ℕ
  maxClones : ℕ
  deriving Repr, DecidableEq

/-- Result object returned by Brick.hit (Brick.js lines 137-184), with the
fields read by Game.handleBrickHit. -/
structure HitResult where
  destroyed : Bool
  points : ℤ
  dropPowerUp : Bool := false
  explosive : Bool := false
  createClone : Bool := false
  isClone : Bool := false
  shouldTeleport : Bool := false
  isSuperPowerup : Bool := false
  deriving Repr, DecidableEq

/-- Brick.startDestroy (Brick.js lines 207-210). -/
def Brick.startDestroy (b : Brick) : Brick :=
  { b with destroying := true, destroyTime := 1/5 }

/-- Brick.hit (Brick.js lines 137-184): decrements hitsRemaining unless the
brick is already destroyed or indestructible, computes the clone-creation
and teleport flags, and transitions to the destroying state when the
counter reaches zero. -/
def Brick.hit (b : Brick) : Brick × HitResult :=
  if b.destroyed = true ∨ b.hitsRemaining = none then
    (b, { destroyed := false, points := 0 })
  else
    let hr : ℤ := (b.hitsRemaining.getD 0) - 1
    let b1 : Brick := { b with hitsRemaining := some hr }
    let shouldCreateClone : Bool :=
      decide (b1.typeId = mirrorId) && decide (hr = 1) && !b1.isClone &&
      decide (b1.clones < b1.maxClones)
    let shouldTeleport : Bool := decide (b1.typeId = movingId) && decide (0 < hr)
    if hr ≤ 0 then
      (b1.startDestroy,
       { destroyed := true
         points := b1.points
         dropPowerUp := decide (b1.typeId = powerId) || b1.hiddenPowerUp ||
           decide (b1.typeId = superPowerupId)
         explosive := decide (b1.typeId = explosiveId)
         createClone := false
         isClone := b1.isClone
         isSuperPowerup := decide (b1.typeId = superPowerupId) })
    else
      (b1, { destroyed := false, points := 5, shouldTeleport := shouldTeleport,
             createClone := shouldCreateClone })

/-- Collision axis reported by Brick.checkCollision. -/
inductive Axis where
  | x
  | y
  deriving Repr, DecidableEq

/-- Collision side reported by Brick.checkCollision. -/
inductive Side where
  | left
  | right
  | top
  | bottom
  deriving Repr, DecidableEq

/-- Brick.checkCollision (Brick.js lines 274-310): bounding-box overlap test
of the ball against the brick, choosing the axis of smaller penetration
as the collision normal.  The ball is given by its center and radius. -/
def Brick.checkCollision (b : Brick) (ballX ballY radius : ℚ) :
    Option (Axis × Side) :=
  if b.destroyed = true then none
  else
    let ballLeft := ballX - radius
    let ballRight := ballX + radius
    let ballTop := ballY - radius
    let ballBottom := ballY + radius
    let brickLeft := b.x
    let brickRight := b.x + b.width
    let brickTop := b.y
    let brickBottom := b.y + b.height
    if brickLeft ≤ ballRight ∧ ballLeft ≤ brickRight ∧
       brickTop ≤ ballBottom ∧ ballTop ≤ brickBottom then
      let overlapLeft := ballRight - brickLeft
      let overlapRight := brickRight - ballLeft
      let overlapTop := ballBottom - brickTop
      let overlapBottom := brickBottom - ballTop
      let minOverlapX := min overlapLeft overlapRight
      let minOverlapY := min overlapTop overlapBottom
      if minOverlapX < minOverlapY then
        some (Axis.x, if overlapLeft < overlapRight then Side.left else Side.right)
      else
        some (Axis.y, if overlapTop < overlapBottom then Side.top else Side.bottom)
    else
      none

/-- State of the ScoreManager (part_003 constructor), restricted to the
fields that addBrickScore and update read or write.  The score popups are
omitted: they are purely visual. -/
structure ScoreManager where
  score : ℤ
  combo : ℕ
  maxCombo : ℕ
  comboTimer : ℚ
  comboTimeout : ℚ
  multiplier : ℚ
  bricksDestroyed : ℕ
  deriving Repr, DecidableEq

/-- Initial ScoreManager state (part_003 constructor / reset). -/
def ScoreManager.init : ScoreManager :=
  { score := 0, combo := 0, maxCombo := 0, comboTimer := 0, comboTimeout := 2,
    multiplier := 1, bricksDestroyed := 0 }

/-- ScoreManager.addBrickScore (part_003 lines 46-76): increments the combo,
resets the decay timer, applies the capped combo multiplier and the active
score multiplier, floors the product, adds it to the score and returns the
awarded amount. -/
def ScoreManager.addBrickScore (s : ScoreManager) (basePoints : ℤ) :
    ScoreManager × ℤ :=
  let combo := s.combo + 1
  let comboMultiplier : ℚ := min (1 + ((combo : ℚ) - 1) * (1/10)) 3
  let totalMultiplier : ℚ := comboMultiplier * s.multiplier
  let points : ℤ := ⌊(basePoints : ℚ) * totalMultiplier⌋
  ({ s with
      combo := combo
      comboTimer := s.comboTimeout
      bricksDestroyed := s.bricksDestroyed + 1
      maxCombo := max s.maxCombo combo
      score := s.score + points },
   points)

/-- Game.handleBrickHit (part_000 lines 722-854), restricted to its effect
on the hit brick, the origin brick of the clone, and the score state.  Audio,
particles, power-up spawning and the explosion recursion are external
side effects that touch neither of these (the explosive branch is modelled
separately through Physics.getNeighborBricks).  The returned list collects
the values of the ScoreManager.addBrickScore calls in order, and the last
component is the HitResult of the Brick.hit call. -/
def handleBrickHit (sm : ScoreManager) (b : Brick) (orig : Option Brick) :
    ScoreManager × Brick × Option Brick × List ℤ × HitResult :=
  let hit := b.hit
  let b1 := hit.1
  let r := hit.2
  if r.destroyed = true then
    let bonusStep : ScoreManager × Option Brick × List ℤ :=
      if r.isClone = true then
        match orig with
        | some ob =>
          if ob.destroyed = false then
            let bonusPoints := ob.points * 2
            let award := sm.addBrickScore bonusPoints
            (award.1, some ob.startDestroy, [award.2])
          else (sm, some ob, [])
        | none => (sm, none, [])
      else (sm, orig, [])
    let sm1 := bonusStep.1
    let award2 := sm1.addBrickScore r.points
    (award2.1, b1, bonusStep.2.1, bonusStep.2.2 ++ [award2.2], r)
  else
    (sm, b1, orig, [], r)

/-- Axis-aligned rectangle laser hitbox (the laser objects of part_000). -/
structure Laser where
  x : ℚ
  y : ℚ
  width : ℚ
  height : ℚ
  deriving Repr, DecidableEq

/-- Physics.checkLaserBrickCollision (part_004 lines 75-84): rectangle
overlap test that skips only bricks already in the destroyed state
(bricks still in the destroying animation are not excluded). -/
def checkLaserBrickCollision (laser : Laser) (b : Brick) : Bool :=
  if b.destroyed = true then false
  else
    decide (laser.x < b.x + b.width) && decide (b.x < laser.x + laser.width) &&
    decide (laser.y < b.y + b.height) && decide (b.y < laser.y + laser.height)

/-- Physics.getNeighborBricks membership test (part_004 lines 89-111): a
brick belongs to the blast neighborhood when it is not the exploding brick
itself, is not destroyed, and its center is within the explosion radius.
Bricks in the destroying state are not excluded.  The distance comparison
is squared to stay in ℚ (Math.sqrt d ≤ r over nonnegative values is
equivalent to d ≤ r * r). -/
def isNeighborBrick (brick other : Brick) (radius : ℚ) : Bool :=
  if other = brick ∨ other.destroyed = true then false
  else
    let brickCenterX := brick.x + brick.width / 2
    let brickCenterY := brick.y + brick.height / 2
    let explosionRadius := (brick.width + brick.height) * radius
    let dx := other.x + other.width / 2 - brickCenterX
    let dy := other.y + other.height / 2 - brickCenterY
    decide (dx * dx + dy * dy ≤ explosionRadius * explosionRadius)

/-- CollisionSystem.circleRectCollision (CollisionSystem.js lines 190-199):
clamps the circle center to the rectangle and compares the squared
distance strictly against the squared radius. -/
def circleRectCollision (cx cy radius rx ry rw rh : ℚ) : Bool :=
  let closestX := max rx (min cx (rx + rw))
  let closestY := max ry (min cy (ry + rh))
  let distanceX := cx - closestX
  let distanceY := cy - closestY
  let distanceSquared := distanceX * distanceX + distanceY * distanceY
  decide (distanceSquared < radius * radius)

/-- An active power-up effect entry of PowerUpManager (the objects pushed
by activate): the effect kind id and the remaining duration. -/
structure Effect where
  typeId : ℕ
  remaining : ℚ
  deriving Repr, DecidableEq

/-- Helper for updateActiveEffects: processes the active-effect array from
the highest index down (the JavaScript loop iterates i from length-1 to 0),
so it receives the reversed array.  Each visited entry is decremented by
dt; the first entry found at ≤ 0 is removed and returned immediately,
leaving all entries at lower indices untouched. -/
def effectsLoop (dt : ℚ) : List Effect → List Effect × Option Effect
  | [] => ([], none)
  | e :: rest =>
    let e1 : Effect := { e with remaining := e.remaining - dt }
    if e1.remaining ≤ 0 then
      (rest.reverse, some e1)
    else
      let tail := effectsLoop dt rest
      (tail.1 ++ [e1], tail.2)

/-- The active-effects phase of PowerUpManager.update (PowerUpManager.js
lines 264-274), reached when no falling power-up was collected in the same
call: walks this.activeEffects from the last entry to the first,
decrementing each visited entry by dt, and returns from the whole update
at the first entry whose remaining duration reaches ≤ 0, reporting it as
expired. -/
def updateActiveEffects (effects : List Effect) (dt : ℚ) :
    List Effect × Option Effect :=
  effectsLoop dt effects.reverse

/-- State of an ObjectPool of particles (ObjectPool.js lines 4-52) together
with the fresh-instance counter standing for createFn: particles are
identified by the order of their allocation, pool is the free list and
active the live list, both in array order. -/
structure PoolState where
  pool : List ℕ
  active : List ℕ
  next : ℕ
  deriving Repr, DecidableEq

/-- ObjectPool.acquire (ObjectPool.js lines 16-25): pops the last pooled
instance if the free list is nonempty, otherwise allocates a fresh one,
and appends it to the active list. -/
def PoolState.acquire (p : PoolState) : PoolState × ℕ :=
  match p.pool.getLast? with
  | some obj =>
    ({ p with pool := p.pool.dropLast, active := p.active ++ [obj] }, obj)
  | none =>
    ({ p with next := p.next + 1, active := p.active ++ [p.next] }, p.next)

/-- The spawn loop of ParticleSystem.emit (ObjectPool.js lines 134-149):
each iteration first checks the soft cap of 200 concurrent live particles
and breaks out of the loop once it is reached, otherwise acquires a
particle from the pool (the subsequent particle.init only writes visual
fields and does not change pool membership). -/
def emitParticles (p : PoolState) : ℕ → PoolState
  | 0 => p
  | count + 1 =>
    if 200 ≤ p.active.length then p
    else emitParticles (p.acquire).1 count

/-- Bubble state (Bubble.js constructor / game.js createBubble), restricted
to the fields the rainbow-platform collision path reads or writes. -/
structure Bubble where
  x : ℚ
  y : ℚ
  vx : ℚ
  vy : ℚ
  isClone : Bool
  deriving Repr, DecidableEq

/-- CollisionSystem.handleRainbowCollision (CollisionSystem.js lines
161-168) combined with the bubble split it triggers
(game.js handleBubbleSplit lines 304-321 and createBubble lines 206-218):
the contacting bubble always gets the jump velocity, and only when it is
not itself a clone is a split emitted, spawning a clone 30 pixels to the
right with isClone set, mirrored horizontal velocities on both, and the
vertical velocity of the contacting bubble copied onto the clone (the
event bus delivers the split synchronously, so originalBubble.vy is the
jump strength at that point). -/
def rainbowContact (b : Bubble) (jumpStrength : ℚ) : Bubble × Option Bubble :=
  let b1 : Bubble := { b with vy := jumpStrength }
  if b1.isClone = true then
    (b1, none)
  else
    ({ b1 with vx := -2 },
     some { x := b1.x + 30, y := b1.y, vx := 2, vy := b1.vy, isClone := true })

/-- One rainbow-platform contact event applied to the bubble population:
the bubble at index i (when present) receives the contact, and the spawned
clone, if any, is appended to the population (entityManager.createEntity
adds the new bubble to the entity list). -/
def rainbowStep (bubbles : List Bubble) (i : ℕ) (jumpStrength : ℚ) :
    List Bubble :=
  match bubbles.get? i with
  | none => bubbles
  | some b =>
    let contact := rainbowContact b jumpStrength
    match contact.2 with
    | none => bubbles.set i contact.1
    | some clone => bubbles.set i contact.1 ++ [clone]

/-- The destroy-animation portion of Brick.update (Brick.js lines 224-232):
while destroying, the timer runs down and the brick becomes destroyed when
it reaches ≤ 0.  The shake, color and movement updates touch neither the
hit counter nor the lifecycle flags. -/
def Brick.updateTick (b : Brick) (dt : ℚ) : Brick :=
  if b.destroying = true then
    let t := b.destroyTime - dt
    if t ≤ 0 then { b with destroyTime := t, destroyed := true }
    else { b with destroyTime := t }
  else b

/-- The events through which the game mutates one brick: a ball collision
(Game.update via Physics.checkBallBrickCollision, which skips destroyed
and destroying bricks), a laser collision (Game.updateLasers via
Physics.checkLaserBrickCollision, which skips only destroyed bricks), one
damage step of an explosion (Game.handleExplosion over
Physics.getNeighborBricks, which skips only destroyed bricks and ignores
the clone flag of the result), and an update tick.  The Boolean on the
ball and laser events records whether Game.findEmptyBrickPosition found a
free spot, in which case Game.createMirrorClone pushes one clone reference
onto the hit brick (part_000 line 974). -/
inductive BrickEvent where
  | ballHit (placementFound : Bool)
  | laserHit (placementFound : Bool)
  | explosionHit
  | tick (dt : ℚ)

/-- The clone-handling part of Game.handleBrickHit (part_000 lines 748-751):
when the hit result asks for a clone and the brick was not destroyed,
createMirrorClone runs and, if a position was found, appends a clone
reference to the brick. -/
def applyCloneCreation (b : Brick) (r : HitResult) (placementFound : Bool) :
    Brick :=
  if r.createClone = true ∧ r.destroyed = false ∧ placementFound = true then
    { b with clones := b.clones + 1 }
  else b

/-- One game event applied to a brick (the paths listed on BrickEvent). -/
def brickStep (b : Brick) : BrickEvent → Brick
  | BrickEvent.ballHit placementFound =>
    if b.destroyed = true ∨ b.destroying = true then b
    else
      let hit := b.hit
      applyCloneCreation hit.1 hit.2 placementFound
  | BrickEvent.laserHit placementFound =>
    if b.destroyed = true then b
    else
      let hit := b.hit
      applyCloneCreation hit.1 hit.2 placementFound
  | BrickEvent.explosionHit =>
    if b.destroyed = true then b
    else (b.hit).1
  | BrickEvent.tick dt => b.updateTick dt

/-- A freshly constructed MIRROR brick (Brick.js constructor with
BrickTypes.MIRROR): 2 hits, 75 points, no clones yet, clone cap 3. -/
def initMirrorBrick (x y width height : ℚ) (hidden : Bool) : Brick :=
  { x := x, y := y, width := width, height := height, typeId := mirrorId,
    maxHits := some 2, hitsRemaining := some 2, points := 75,
    destroyed := false, destroying := false, destroyTime := 0,
    hiddenPowerUp := hidden, isClone := false, clones := 0, maxClones := 3 }

/-- A NORMAL brick caught mid destroy animation: its last hit set
hitsRemaining to 0 and startDestroy ran, but the 0.2 s destroy timer has
not yet elapsed, so destroyed is still false. -/
def dyingBrick : Brick :=
  { x := 0, y := 0, width := 60, height := 20, typeId := normalId,
    maxHits := some 1, hitsRemaining := some 0, points := 10,
    destroyed := false, destroying := true, destroyTime := 1/10,
    hiddenPowerUp := false, isClone := false, clones := 0, maxClones := 3 }

/-- A laser shot overlapping dyingBrick. -/
def laserShot : Laser := { x := 10, y := 5, width := 4, height := 15 }

/-- An EXPLOSIVE brick right next to dyingBrick. -/
def explodingBrick : Brick :=
  { dyingBrick with
    x := 70, typeId := explosiveId, points := 25,
    destroying := false, destroyTime := 0 }

/-- C1: an obstacle in the Destroying state (hitsRemaining already 0,
destroyed still false) is still accepted by the laser collision test and
by the explosion neighborhood test, both of which exclude only destroyed
bricks; a further hit then decrements hitsRemaining to -1 and reports the
brick destroyed a second time, violating the claimed non-negativity and
the claimed exclusion from further collision checks. -/
theorem c1_destroying_brick_hit_again :
    checkLaserBrickCollision laserShot dyingBrick = true ∧
    isNeighborBrick explodingBrick dyingBrick (3/2) = true ∧
    (dyingBrick.hit).1.hitsRemaining = some (-1) ∧
    (dyingBrick.hit).2.destroyed = true := by
  have hne : ¬(some (0 : ℤ) = none) := by decide
  refine ⟨?_, ?_, ?_, ?_⟩
  · simp only [checkLaserBrickCollision, laserShot, dyingBrick]
    norm_num
  · simp only [isNeighborBrick, dyingBrick, explodingBrick]
    norm_num
  · simp only [Brick.hit, Brick.startDestroy, dyingBrick]
    norm_num
    rw [if_neg hne]
  · simp only [Brick.hit, Brick.startDestroy, dyingBrick]
    norm_num
    rw [if_neg hne]

/-- A ScoreManager about to register its 11th combo hit under a 2x score
multiplier. -/
def smCombo10 : ScoreManager :=
  { ScoreManager.init with combo := 10, multiplier := 2 }

/-- C2 counterexample: the hit that brings the combo to 11 with a 2x score
multiplier awards floor(100 x 2 x 2) = 400 points, not
floor(100 x 3 x 2) = 600 as claimed: min(1 + (11-1) x 0.1, 3) = 2, so the
combo multiplier has not reached its cap of 3 at combo 11. -/
theorem c2_combo11_counterexample :
    (smCombo10.addBrickScore 100).1.combo = 11 ∧
    (smCombo10.addBrickScore 100).2 = 400 ∧
    (400 : ℤ) ≠ ⌊(100 : ℚ) * 3 * 2⌋ := by
  refine ⟨rfl, ?_, by norm_num⟩
  norm_num [ScoreManager.addBrickScore, smCombo10, ScoreManager.init, min_def]

/-- C2 (amended): a hit with base points b awards
floor(b x min(1 + combo x 0.1, 3) x multiplier) where combo counts the
earlier hits of the streak, and adds exactly that amount to the score;
with combo=1 and multiplier=1 this is b; the hit reaching combo=11 under
multiplier=2 awards 4b because min(1 + 10 x 0.1, 3) = 2; the cap of 3 is
first reached at combo=21, where the award under multiplier=2 is 6b. -/
theorem c2_award_formula :
    (∀ (s : ScoreManager) (basePoints : ℤ),
       (s.addBrickScore basePoints).2 =
         ⌊(basePoints : ℚ) * (min (1 + (s.combo : ℚ) * (1/10)) 3 * s.multiplier)⌋ ∧
       (s.addBrickScore basePoints).1.score =
         s.score + (s.addBrickScore basePoints).2) ∧
    (∀ basePoints : ℤ,
       (ScoreManager.init.addBrickScore basePoints).2 = basePoints) ∧
    (∀ basePoints : ℤ, (smCombo10.addBrickScore basePoints).2 = 4 * basePoints) ∧
    (∀ basePoints : ℤ,
       (ScoreManager.addBrickScore
          { ScoreManager.init with combo := 20, multiplier := 2 }
          basePoints).2 = 6 * basePoints) := by
  refine ⟨fun s basePoints => ⟨?_, ?_⟩, fun b => ?_, fun b => ?_, fun b => ?_⟩
  · unfold ScoreManager.addBrickScore
    push_cast
    ring
  · rfl
  · unfold ScoreManager.addBrickScore ScoreManager.init
    norm_num [min_def]
  · unfold ScoreManager.addBrickScore smCombo10 ScoreManager.init
    norm_num [min_def]
    rw [show ((4:ℚ)) = ((4 : ℤ) : ℚ) by norm_num, ← Int.cast_mul, Int.floor_intCast]
    ring
  · unfold ScoreManager.addBrickScore ScoreManager.init
    norm_num [min_def]
    rw [show ((6:ℚ)) = ((6 : ℤ) : ℚ) by norm_num, ← Int.cast_mul, Int.floor_intCast]
    ring

/-- An intact NORMAL brick occupying the square from (0,0) to (10,10). -/
def tieBrick : Brick :=
  { x := 0, y := 0, width := 10, height := 10, typeId := normalId,
    maxHits := some 1, hitsRemaining := some 1, points := 10,
    destroyed := false, destroying := false, destroyTime := 0,
    hiddenPowerUp := false, isClone := false, clones := 0, maxClones := 3 }

/-- C3 counterexample: a ball of radius 2 centered at (1,1) against
tieBrick has equal penetration overlaps along both axes (both minima are
3), yet checkCollision reports the vertical axis, not the horizontal axis
the claim promises for ties. -/
theorem c3_tie_counterexample :
    min ((1 : ℚ) + 2 - tieBrick.x) (tieBrick.x + tieBrick.width - (1 - 2)) =
      min ((1 : ℚ) + 2 - tieBrick.y) (tieBrick.y + tieBrick.height - (1 - 2)) ∧
    tieBrick.checkCollision 1 1 2 = some (Axis.y, Side.top) := by
  constructor
  · simp only [tieBrick]
  · simp only [Brick.checkCollision, tieBrick]
    norm_num

/-- C3 (amended): on an overlapping, non-destroyed brick the collision
normal is the axis whose penetration overlap is strictly smaller — a
strictly smaller horizontal minimum yields the horizontal axis, a
strictly smaller vertical minimum yields the vertical axis — and when the
two overlaps are exactly equal the VERTICAL axis is chosen (the
minOverlapX < minOverlapY comparison fails on equality and the code takes
the vertical branch, so the second conjunct covers both the
strictly-smaller-vertical case and the tie). -/
theorem c3_axis_of_smaller_overlap :
    (∀ (b : Brick) (ballX ballY radius : ℚ),
       b.destroyed = false →
       b.x ≤ ballX + radius → ballX - radius ≤ b.x + b.width →
       b.y ≤ ballY + radius → ballY - radius ≤ b.y + b.height →
       min (ballX + radius - b.x) (b.x + b.width - (ballX - radius)) <
         min (ballY + radius - b.y) (b.y + b.height - (ballY - radius)) →
       b.checkCollision ballX ballY radius =
         some (Axis.x,
           if ballX + radius - b.x < b.x + b.width - (ballX - radius) then Side.left
           else Side.right)) ∧
    (∀ (b : Brick) (ballX ballY radius : ℚ),
       b.destroyed = false →
       b.x ≤ ballX + radius → ballX - radius ≤ b.x + b.width →
       b.y ≤ ballY + radius → ballY - radius ≤ b.y + b.height →
       min (ballY + radius - b.y) (b.y + b.height - (ballY - radius)) ≤
         min (ballX + radius - b.x) (b.x + b.width - (ballX - radius)) →
       b.checkCollision ballX ballY radius =
         some (Axis.y,
           if ballY + radius - b.y < b.y + b.height - (ballY - radius) then Side.top
           else Side.bottom)) := by
  constructor
  · intro b ballX ballY radius hd h1 h2 h3 h4 hlt
    simp only [Brick.checkCollision, hd]
    rw [if_neg (by simp), if_pos ⟨h1, h2, h3, h4⟩, if_pos hlt]
  · intro b ballX ballY radius hd h1 h2 h3 h4 hle
    simp only [Brick.checkCollision, hd]
    rw [if_neg (by simp), if_pos ⟨h1, h2, h3, h4⟩, if_neg (not_lt.mpr hle)]

/-- C3 witness: the axis-selection theorem applied to two concrete
configurations against tieBrick — a ball at (1,5) whose horizontal overlap
3 is strictly smaller than its vertical overlap 7, and the tie
configuration at (1,1) with both overlaps 3, which takes the vertical
axis. -/
theorem c3_axis_of_smaller_overlap_witness :
    tieBrick.checkCollision 1 5 2 = some (Axis.x, Side.left) ∧
    tieBrick.checkCollision 1 1 2 = some (Axis.y, Side.top) := by
  constructor
  · have h := c3_axis_of_smaller_overlap.1 tieBrick 1 5 2 rfl
      (by norm_num [tieBrick]) (by norm_num [tieBrick])
      (by norm_num [tieBrick]) (by norm_num [tieBrick])
      (by norm_num [tieBrick])
    rw [h]
    norm_num [tieBrick]
  · have h := c3_axis_of_smaller_overlap.2 tieBrick 1 1 2 rfl
      (by norm_num [tieBrick]) (by norm_num [tieBrick])
      (by norm_num [tieBrick]) (by norm_num [tieBrick])
      (by norm_num [tieBrick])
    rw [h]
    norm_num [tieBrick]

/-- A STRONG brick (2 hits) that has not been hit yet. -/
def strongBrick : Brick :=
  { x := 0, y := 0, width := 60, height := 20, typeId := strongId,
    maxHits := some 2, hitsRemaining := some 2, points := 20,
    destroyed := false, destroying := false, destroyTime := 0,
    hiddenPowerUp := false, isClone := false, clones := 0, maxClones := 3 }

/-- C10: a hit that leaves hitsRemaining above 0 returns the partial-hit
point value 5, yet handleBrickHit takes its non-destroyed branch, calls
addBrickScore nowhere, and leaves the whole score state (score, combo,
decay timer) untouched. -/
theorem c10_partial_hit_unscored (sm : ScoreManager) (b : Brick)
    (orig : Option Brick) (n : ℤ)
    (hd : b.destroyed = false) (hr : b.hitsRemaining = some n) (hn : 1 < n) :
    (handleBrickHit sm b orig).1 = sm ∧
    (handleBrickHit sm b orig).2.2.2.1 = [] ∧
    (handleBrickHit sm b orig).2.2.2.2.destroyed = false ∧
    (handleBrickHit sm b orig).2.2.2.2.points = 5 := by
  have hno : ¬(n - 1 ≤ 0) := by omega
  refine ⟨?_, ?_, ?_, ?_⟩ <;>
    simp [handleBrickHit, Brick.hit, hd, hr, hno]

/-- C10 witness: the partial-hit theorem applied to the first hit of a
fresh STRONG brick against the initial score state. -/
theorem c10_partial_hit_unscored_witness :
    (handleBrickHit ScoreManager.init strongBrick none).1 = ScoreManager.init ∧
    (handleBrickHit ScoreManager.init strongBrick none).2.2.2.1 = [] ∧
    (handleBrickHit ScoreManager.init strongBrick none).2.2.2.2.destroyed = false ∧
    (handleBrickHit ScoreManager.init strongBrick none).2.2.2.2.points = 5 :=
  c10_partial_hit_unscored ScoreManager.init strongBrick none 2 rfl rfl
    (by norm_num)

/-- Helper: addBrickScore in closed form — the awarded amount is the floor
of basePoints times the capped combo multiplier times the active score
multiplier, the award is added to the score, the combo increments, and the
active multiplier is unchanged. -/
theorem addBrickScore_award (s : ScoreManager) (basePoints : ℤ) :
    (s.addBrickScore basePoints).2 =
      ⌊(basePoints : ℚ) * (min (1 + (s.combo : ℚ) * (1/10)) 3 * s.multiplier)⌋ ∧
    (s.addBrickScore basePoints).1.score =
      s.score + (s.addBrickScore basePoints).2 ∧
    (s.addBrickScore basePoints).1.combo = s.combo + 1 ∧
    (s.addBrickScore basePoints).1.multiplier = s.multiplier := by
  refine ⟨?_, rfl, rfl, rfl⟩
  unfold ScoreManager.addBrickScore
  push_cast
  ring_nf

/-- A ScoreManager one hit into a combo streak. -/
def smCombo1 : ScoreManager := { ScoreManager.init with combo := 1 }

/-- A MIRROR clone brick that has already taken its first hit, so the next
hit destroys it. -/
def cloneBrick : Brick :=
  { x := 100, y := 100, width := 60, height := 20, typeId := mirrorId,
    maxHits := some 2, hitsRemaining := some 1, points := 75,
    destroyed := false, destroying := false, destroyTime := 0,
    hiddenPowerUp := false, isClone := true, clones := 0, maxClones := 3 }

/-- The origin MIRROR brick of cloneBrick, still alive. -/
def origBrick : Brick :=
  { x := 0, y := 0, width := 60, height := 20, typeId := mirrorId,
    maxHits := some 2, hitsRemaining := some 1, points := 75,
    destroyed := false, destroying := false, destroyTime := 0,
    hiddenPowerUp := false, isClone := false, clones := 1, maxClones := 3 }

/-- C4 counterexample: destroying a clone while the 75-point origin lives,
with one previous combo hit on the meter, awards a bonus of 165 points
(the 150 base is fed through addBrickScore, whose combo multiplier is 1.1
at that moment), not exactly 2 x 75 = 150 as claimed.  The awards list
holds the bonus award followed by the destruction award of the clone. -/
theorem c4_bonus_not_exactly_double :
    (handleBrickHit smCombo1 cloneBrick (some origBrick)).2.2.2.1 = [165, 90] ∧
    (165 : ℤ) ≠ 2 * origBrick.points := by
  constructor
  · simp only [handleBrickHit, Brick.hit, ScoreManager.addBrickScore,
      Brick.startDestroy, smCombo1, cloneBrick, origBrick, ScoreManager.init,
      mirrorId, powerId, superPowerupId, explosiveId,
      (by decide : ¬(some (1 : ℤ) = none))]
    norm_num [min_def]
  · simp only [origBrick]
    norm_num

/-- C4 (amended): when a clone brick is destroyed while its origin is not
destroyed, the origin is forced directly into the Destroying state, and a
bonus scoring hit whose BASE points are twice the point value of the origin is
registered through the combo scoring — so the amount actually added for
the bonus is floor(2 x points x comboMultiplier x multiplier), which
equals 2 x points only when both multipliers are 1; the own
destruction award follows it. -/
theorem c4_clone_destruction_bonus (sm : ScoreManager) (b ob : Brick)
    (hd : b.destroyed = false) (hr : b.hitsRemaining = some 1)
    (hc : b.isClone = true) (ho : ob.destroyed = false) :
    (handleBrickHit sm b (some ob)).2.2.1 = some ob.startDestroy ∧
    (handleBrickHit sm b (some ob)).2.2.2.1 =
      [⌊(ob.points * 2 : ℚ) * (min (1 + (sm.combo : ℚ) * (1/10)) 3 * sm.multiplier)⌋,
       ⌊(b.points : ℚ) * (min (1 + ((sm.combo : ℚ) + 1) * (1/10)) 3 * sm.multiplier)⌋] ∧
    (handleBrickHit sm b (some ob)).1.score =
      sm.score +
        ⌊(ob.points * 2 : ℚ) * (min (1 + (sm.combo : ℚ) * (1/10)) 3 * sm.multiplier)⌋ +
        ⌊(b.points : ℚ) * (min (1 + ((sm.combo : ℚ) + 1) * (1/10)) 3 * sm.multiplier)⌋ := by
  have h1 := addBrickScore_award sm (ob.points * 2)
  have h2 := addBrickScore_award (sm.addBrickScore (ob.points * 2)).1 b.points
  simp only [handleBrickHit, Brick.hit, hd, hr, hc, ho]
  norm_num
  rw [if_neg (by decide : ¬(some (1 : ℤ) = none))]
  norm_num [Brick.startDestroy]
  rw [h2.1, h1.2.2.1, h1.2.2.2, h2.2.1, h2.1, h1.2.2.1, h1.2.2.2, h1.2.1, h1.1]
  push_cast
  ring_nf
  simp

/-- C4 witness: the clone-destruction bonus theorem applied to the
concrete clone/origin pair under a one-hit combo streak. -/
theorem c4_clone_destruction_bonus_witness :
    (handleBrickHit smCombo1 cloneBrick (some origBrick)).2.2.1 =
      some origBrick.startDestroy ∧
    (handleBrickHit smCombo1 cloneBrick (some origBrick)).2.2.2.1 =
      [⌊(origBrick.points * 2 : ℚ) *
          (min (1 + (smCombo1.combo : ℚ) * (1/10)) 3 * smCombo1.multiplier)⌋,
       ⌊(cloneBrick.points : ℚ) *
          (min (1 + ((smCombo1.combo : ℚ) + 1) * (1/10)) 3 * smCombo1.multiplier)⌋] ∧
    (handleBrickHit smCombo1 cloneBrick (some origBrick)).1.score =
      smCombo1.score +
        ⌊(origBrick.points * 2 : ℚ) *
            (min (1 + (smCombo1.combo : ℚ) * (1/10)) 3 * smCombo1.multiplier)⌋ +
        ⌊(cloneBrick.points : ℚ) *
            (min (1 + ((smCombo1.combo : ℚ) + 1) * (1/10)) 3 * smCombo1.multiplier)⌋ :=
  c4_clone_destruction_bonus smCombo1 cloneBrick origBrick rfl rfl rfl rfl

/-- C8 counterexample: a circle of radius 2 centered at (-2, 5) exactly
touches the left edge of the 10 x 10 brick at the origin (the clamped
distance equals the radius, zero penetration).  The circle test of
CollisionSystem reports no collision, but Brick.checkCollision — one of
the two circle-vs-rectangle tests the claim covers — reports a collision
on this zero-penetration contact because its bounds are inclusive. -/
theorem c8_touch_counterexample :
    ((-2 : ℚ) - max tieBrick.x (min (-2 : ℚ) (tieBrick.x + tieBrick.width))) ^ 2 +
        ((5 : ℚ) - max tieBrick.y (min (5 : ℚ) (tieBrick.y + tieBrick.height))) ^ 2 =
      (2 : ℚ) ^ 2 ∧
    circleRectCollision (-2) 5 2 tieBrick.x tieBrick.y tieBrick.width
      tieBrick.height = false ∧
    tieBrick.checkCollision (-2) 5 2 = some (Axis.x, Side.left) := by
  refine ⟨?_, ?_, ?_⟩
  · simp only [tieBrick]
    norm_num
  · simp only [circleRectCollision, tieBrick]
    norm_num
  · simp only [Brick.checkCollision, tieBrick]
    norm_num

/-- C8 (amended): the circle test circleRectCollision requires strictly
positive penetration — a circle whose clamped center distance equals its
radius (exact touch) is reported as no collision — but Brick.checkCollision
uses inclusive bounding-box comparisons, so an exact touch of the
left edge is reported as a collision there. -/
theorem c8_strict_overlap_split :
    (∀ cx cy radius rx ry rw rh : ℚ,
       (cx - max rx (min cx (rx + rw))) * (cx - max rx (min cx (rx + rw))) +
           (cy - max ry (min cy (ry + rh))) * (cy - max ry (min cy (ry + rh))) =
         radius * radius →
       circleRectCollision cx cy radius rx ry rw rh = false) ∧
    (∀ (b : Brick) (ballX ballY radius : ℚ),
       b.destroyed = false → 0 ≤ radius → 0 ≤ b.width →
       ballX + radius = b.x →
       b.y ≤ ballY + radius → ballY - radius ≤ b.y + b.height →
       b.checkCollision ballX ballY radius ≠ none) := by
  constructor
  · intro cx cy radius rx ry rw rh htouch
    simp only [circleRectCollision]
    rw [htouch]
    simp
  · intro b ballX ballY radius hd hrad hw htouch h3 h4
    simp only [Brick.checkCollision, hd]
    rw [if_neg (by simp)]
    rw [if_pos ⟨by rw [htouch], by rw [← htouch]; linarith, h3, h4⟩]
    split <;> simp

/-- C8 witness: the amended theorem applied to the concrete exact-touch
configuration of c8_touch_counterexample. -/
theorem c8_strict_overlap_split_witness :
    circleRectCollision (-2) 5 2 tieBrick.x tieBrick.y tieBrick.width
      tieBrick.height = false ∧
    tieBrick.checkCollision (-2) 5 2 ≠ none :=
  ⟨c8_strict_overlap_split.1 (-2) 5 2 tieBrick.x tieBrick.y tieBrick.width
      tieBrick.height (by norm_num [tieBrick]),
   c8_strict_overlap_split.2 tieBrick (-2) 5 2 rfl (by norm_num)
      (by norm_num [tieBrick]) (by norm_num [tieBrick]) (by norm_num [tieBrick])
      (by norm_num [tieBrick])⟩

/-- Helper: walking an all-surviving prefix of the reversed effect array
just decrements it and keeps going. -/
theorem effectsLoop_append (dt : ℚ) (xs rest : List Effect)
    (hxs : ∀ e ∈ xs, 0 < e.remaining - dt) :
    effectsLoop dt (xs ++ rest) =
      ((effectsLoop dt rest).1 ++
        (xs.map (fun e => { e with remaining := e.remaining - dt })).reverse,
       (effectsLoop dt rest).2) := by
  induction xs with
  | nil => simp
  | cons e xs ih =>
    have he := hxs e (List.mem_cons_self e xs)
    have hxs2 : ∀ a ∈ xs, 0 < a.remaining - dt :=
      fun a ha => hxs a (List.mem_cons_of_mem e ha)
    simp only [List.cons_append, effectsLoop]
    rw [if_neg (show ¬(e.remaining - dt ≤ 0) by linarith)]
    simp only [List.append_eq]
    rw [ih hxs2]
    simp

/-- C6 counterexample: with two active effects both at 0.5 s remaining and
dt = 1, the update decrements and expires only the later entry and returns
immediately: the earlier timer keeps remaining = 0.5 (it is not
decremented and its expiry is not reported), contradicting the claim that
every active timer is decremented and every timer reaching ≤ 0 is
reported. -/
theorem c6_skipped_timer_counterexample :
    updateActiveEffects [⟨1, 1/2⟩, ⟨2, 1/2⟩] 1 =
      ([⟨1, 1/2⟩], some ⟨2, -(1/2)⟩) := by
  simp only [updateActiveEffects, List.reverse_cons, List.reverse_nil,
    List.nil_append, List.cons_append, effectsLoop]
  norm_num

/-- C6 (amended): PowerUpManager.update walks the active effects from the
last entry to the first, decrementing each visited timer by dt; when no
timer reaches ≤ 0 all are decremented, but the FIRST timer found at ≤ 0 is
removed and reported and the call returns at once, so the entries before
it (earlier in the array) are not decremented in that call and at most one
expiry is reported per call. -/
theorem c6_update_effects (dt : ℚ) :
    (∀ l : List Effect, (∀ e ∈ l, 0 < e.remaining - dt) →
       updateActiveEffects l dt =
         (l.map (fun e => { e with remaining := e.remaining - dt }), none)) ∧
    (∀ (l₁ : List Effect) (t : Effect) (l₂ : List Effect),
       (∀ e ∈ l₂, 0 < e.remaining - dt) → t.remaining - dt ≤ 0 →
       updateActiveEffects (l₁ ++ t :: l₂) dt =
         (l₁ ++ l₂.map (fun e => { e with remaining := e.remaining - dt }),
          some { t with remaining := t.remaining - dt })) := by
  constructor
  · intro l hl
    have h := effectsLoop_append dt l.reverse []
      (fun e he => hl e (List.mem_reverse.mp he))
    simp only [List.append_nil] at h
    simp only [updateActiveEffects, h, effectsLoop]
    simp [List.map_reverse]
  · intro l₁ t l₂ hl₂ ht
    have h := effectsLoop_append dt l₂.reverse (t :: l₁.reverse)
      (fun e he => hl₂ e (List.mem_reverse.mp he))
    simp only [updateActiveEffects, List.reverse_append, List.reverse_cons]
    rw [List.append_assoc, List.singleton_append, h]
    simp only [effectsLoop]
    rw [if_pos (show { t with remaining := t.remaining - dt : Effect }.remaining ≤ 0
      from ht)]
    simp [List.map_reverse]

/-- C6 witness: the amended theorem applied to three concrete timers with
dt = 1 — the middle one expires, the later one is decremented, and the
earlier one is left untouched. -/
theorem c6_update_effects_witness :
    updateActiveEffects [⟨1, 5⟩, ⟨2, 1/2⟩, ⟨3, 7⟩] 1 =
      ([⟨1, 5⟩, ⟨3, 6⟩], some ⟨2, -(1/2)⟩) := by
  have h := (c6_update_effects 1).2 [⟨1, 5⟩] ⟨2, 1/2⟩ [⟨3, 7⟩]
    (by intro e he; simp at he; rw [he]; norm_num) (by norm_num)
  simp only [List.cons_append, List.nil_append] at h
  rw [h]
  norm_num

/-- A particle pool whose live list is at the 200-particle soft cap,
holding particles 0..199 in spawn order (0 is the oldest). -/
def fullPool : PoolState :=
  { pool := [], active := List.range 200, next := 200 }

/-- C7 counterexample: a spawn request against a pool at the 200-particle
cap leaves the pool exactly as it was — nothing is spawned and no live
particle is evicted; the request is simply dropped, contradicting the
claimed eviction of the oldest live instance. -/
theorem c7_cap_drops_request :
    emitParticles fullPool 1 = fullPool ∧
    fullPool.active.length = 200 ∧
    (emitParticles fullPool 1).active.head? = some 0 := by
  refine ⟨?_, by simp [fullPool], ?_⟩
  · simp [emitParticles, fullPool]
  · simp [emitParticles, fullPool]
    rfl

/-- C7 (amended): when the live-particle count has reached the soft cap of
200, ParticleSystem.emit spawns nothing and returns the pool unchanged
(the remaining requested particles are dropped); and no emit call ever
evicts a live particle — the oldest live particle stays at the front of
the active list through any emit. -/
theorem c7_cap_stops_spawning :
    (∀ (p : PoolState) (count : ℕ), 200 ≤ p.active.length →
       emitParticles p count = p) ∧
    (∀ (p : PoolState) (count : ℕ) (x : ℕ), p.active.head? = some x →
       (emitParticles p count).active.head? = some x) := by
  constructor
  · intro p count h
    cases count with
    | zero => rfl
    | succ n => simp [emitParticles, h]
  · intro p count
    induction count generalizing p with
    | zero => intro x hx; simpa [emitParticles] using hx
    | succ n ih =>
      intro x hx
      simp only [emitParticles]
      split
      · exact hx
      · apply ih
        cases pa : p.active with
        | nil => rw [pa] at hx; simp at hx
        | cons a tl =>
          rw [pa] at hx
          simp only [List.head?_cons, Option.some.injEq] at hx
          unfold PoolState.acquire
          cases hp : p.pool.getLast? <;> simp [pa, hx]

/-- C7 witness: the amended theorem applied to the concrete full pool —
the spawn request is a no-op and the oldest particle 0 survives. -/
theorem c7_cap_stops_spawning_witness :
    emitParticles fullPool 1 = fullPool ∧
    (emitParticles fullPool 1).active.head? = some 0 :=
  ⟨c7_cap_stops_spawning.1 fullPool 1 (by simp [fullPool]),
   c7_cap_stops_spawning.2 fullPool 1 0 (by rfl)⟩

/-- C9: a Splitting (rainbow) platform contact emits a split only for a
bubble that is not itself a clone; every spawned clone carries
isClone = true, the contact response never changes the clone flag, and a
contact event on a clone bubble only updates that bubble in place — the
population gains no new bubble.  Hence over any sequence of contacts a
clone produced by a split never produces a further clone. -/
theorem c9_clone_never_splits :
    (∀ (b : Bubble) (j : ℚ), b.isClone = true → (rainbowContact b j).2 = none) ∧
    (∀ (b c : Bubble) (j : ℚ), (rainbowContact b j).2 = some c →
       b.isClone = false ∧ c.isClone = true) ∧
    (∀ (b : Bubble) (j : ℚ), (rainbowContact b j).1.isClone = b.isClone) ∧
    (∀ (bubbles : List Bubble) (i : ℕ) (j : ℚ) (b : Bubble),
       bubbles.get? i = some b → b.isClone = true →
       rainbowStep bubbles i j = bubbles.set i (rainbowContact b j).1 ∧
       (rainbowStep bubbles i j).length = bubbles.length) := by
  refine ⟨?_, ?_, ?_, ?_⟩
  · intro b j h
    simp [rainbowContact, h]
  · intro b c j h
    cases hb : b.isClone with
    | true => simp [rainbowContact, hb] at h
    | false =>
      refine ⟨rfl, ?_⟩
      simp only [rainbowContact, hb, Bool.false_eq_true, if_false,
        Option.some.injEq] at h
      rw [← h]
  · intro b j
    simp only [rainbowContact]
    split <;> rfl
  · intro bubbles i j b hget hc
    have h1 : rainbowStep bubbles i j = bubbles.set i (rainbowContact b j).1 := by
      unfold rainbowStep
      rw [hget]
      simp [rainbowContact, hc]
    exact ⟨h1, by rw [h1]; simp⟩

/-- C9 witness: the theorem applied to a concrete clone bubble and to a
one-bubble population holding it — its rainbow contact emits no split and
the population size stays 1. -/
theorem c9_clone_never_splits_witness :
    (rainbowContact ⟨0, 0, 0, 0, true⟩ 5).2 = none ∧
    (rainbowStep [⟨0, 0, 0, 0, true⟩] 0 5).length = 1 :=
  ⟨c9_clone_never_splits.1 ⟨0, 0, 0, 0, true⟩ 5 rfl,
   (c9_clone_never_splits.2.2.2 [⟨0, 0, 0, 0, true⟩] 0 5 ⟨0, 0, 0, 0, true⟩
      rfl rfl).2⟩

/-- Helper: Brick.hit never touches the clone list or the clone cap. -/
theorem Brick.hit_clones_eq (b : Brick) :
    (b.hit).1.clones = b.clones ∧ (b.hit).1.maxClones = b.maxClones := by
  constructor <;>
    · simp only [Brick.hit, Brick.startDestroy]
      split
      · rfl
      · split <;> rfl

/-- Helper: a hit result asking for a clone can only arise when the brick
is still below its clone cap. -/
theorem Brick.hit_createClone_bound (b : Brick) :
    (b.hit).2.createClone = true → b.clones < b.maxClones := by
  simp only [Brick.hit]
  split
  · intro h
    simp at h
  · split
    · intro h
      simp at h
    · intro h
      simp only [Bool.and_eq_true, decide_eq_true_eq] at h
      exact h.2

/-- Helper: every game event preserves the clone-cap invariant and never
changes the cap itself. -/
theorem brickStep_preserves_cap (b : Brick) (e : BrickEvent)
    (h : b.clones ≤ b.maxClones) :
    (brickStep b e).clones ≤ (brickStep b e).maxClones ∧
    (brickStep b e).maxClones = b.maxClones := by
  have hitStep : ∀ pf : Bool,
      (applyCloneCreation (b.hit).1 (b.hit).2 pf).clones ≤
        (applyCloneCreation (b.hit).1 (b.hit).2 pf).maxClones ∧
      (applyCloneCreation (b.hit).1 (b.hit).2 pf).maxClones = b.maxClones := by
    intro pf
    have hcl := Brick.hit_clones_eq b
    unfold applyCloneCreation
    split
    · rename_i hcc
      have hlt := Brick.hit_createClone_bound b hcc.1
      constructor
      · show (b.hit).1.clones + 1 ≤ (b.hit).1.maxClones
        rw [hcl.1, hcl.2]
        omega
      · exact hcl.2
    · exact ⟨by rw [hcl.1, hcl.2]; exact h, hcl.2⟩
  cases e with
  | ballHit pf =>
    simp only [brickStep]
    split
    · exact ⟨h, rfl⟩
    · exact hitStep pf
  | laserHit pf =>
    simp only [brickStep]
    split
    · exact ⟨h, rfl⟩
    · exact hitStep pf
  | explosionHit =>
    have hcl := Brick.hit_clones_eq b
    simp only [brickStep]
    split
    · exact ⟨h, rfl⟩
    · exact ⟨by rw [hcl.1, hcl.2]; exact h, hcl.2⟩
  | tick dt =>
    simp only [brickStep, Brick.updateTick]
    split
    · split <;> exact ⟨h, rfl⟩
    · exact ⟨h, rfl⟩

/-- C5: for every starting position and size and every sequence of game
events (ball hits, laser hits, explosion damage steps, update ticks,
each with clone placement succeeding or failing), the clone
reference count never exceeds 3. -/
theorem c5_mirror_clone_cap (x y width height : ℚ) (hidden : Bool)
    (events : List BrickEvent) :
    (events.foldl brickStep (initMirrorBrick x y width height hidden)).clones
      ≤ 3 := by
  have key : ∀ (evs : List BrickEvent) (b : Brick),
      b.clones ≤ b.maxClones → b.maxClones = 3 →
      (evs.foldl brickStep b).clones ≤ (evs.foldl brickStep b).maxClones ∧
      (evs.foldl brickStep b).maxClones = 3 := by
    intro evs
    induction evs with
    | nil => intro b h1 h2; exact ⟨h1, h2⟩
    | cons e evs ih =>
      intro b h1 h2
      have hp := brickStep_preserves_cap b e h1
      have hrest := ih (brickStep b e) hp.1 (hp.2.trans h2)
      simpa [List.foldl_cons] using hrest
  have h := key events (initMirrorBrick x y width height hidden)
    (by simp [initMirrorBrick]) rfl
  calc (events.foldl brickStep (initMirrorBrick x y width height hidden)).clones
      ≤ (events.foldl brickStep (initMirrorBrick x y width height hidden)).maxClones := h.1
    _ = 3 := h.2

end BrickBreaker
